import Mathlib

/-!
Formal model of the sales-script generator service (`app.py`).

The core of the program is the pure function `generate_sales_script`, which
selects one of six fixed templates (script_type x tone), interpolates the
caller values, and derives metadata (word count, estimated duration, tips).
Around it sit two request handlers: `generate_script` (the `/api/sales-script`
boundary with its try/except) and `quick_script` (the Gradio-shaped
`/api/quick-script/predict` handler).

Strings are modelled with Lean `String`; Python `str.strip()` is `pyStrip`
below, `str.lower()` is `pyLower` below, `str.split()` with no argument is
`pySplit` below, Python `//` on non-negative integers is `Nat` division, and
Python `str.format` is the one-pass placeholder scanner `formatTemplate`
below.
-/

namespace SalesScript

/-- Python `str.split()` with no argument: split the string on runs of
whitespace, returning only the non-empty tokens. -/
def pySplit (s : String) : List String :=
  (s.split Char.isWhitespace).filter (fun t => t ≠ "")

/-- Python `str.strip()` with no argument: remove leading and trailing
whitespace.  Implemented structurally over the character list (rather than
with `String.trim`, which is definitionally equal but defined by well-founded
recursion and so does not reduce inside the kernel). -/
def pyStrip (s : String) : String :=
  String.mk (((s.data.dropWhile Char.isWhitespace).reverse.dropWhile Char.isWhitespace).reverse)

/-- Python `str.lower()`, on the ASCII letters the program's tone keys use:
map `Char.toLower` over the characters. -/
def pyLower (s : String) : String :=
  String.mk (s.data.map Char.toLower)

/-- One-pass scanner modelling Python `str.format(**kwargs)` on the templates
of `app.py`: characters are copied verbatim until a `\x7b` is met, then the
placeholder name up to the matching `\x7d` is read and replaced by its value.
Substituted values are emitted directly and never re-scanned, exactly as
Python `format` behaves.  (The templates contain no escaped braces and no
unclosed brace, so those `format` behaviours are not modelled.) -/
def interpAux (lookup : String → String) : List Char → Option (List Char) → List Char
  | [], _ => []
  | c :: rest, none =>
    if c = '{' then interpAux lookup rest (some [])
    else c :: interpAux lookup rest none
  | c :: rest, some key =>
    if c = '}' then (lookup (String.mk key.reverse)).data ++ interpAux lookup rest none
    else interpAux lookup rest (some (c :: key))

/-- `template.format(product_name=…, target_audience=…, benefits_list=…,
primary_benefit=…)` from `generate_sales_script` (src/app.py lines 290-295). -/
def formatTemplate (template pn ta bl pb : String) : String :=
  String.mk (interpAux
    (fun key =>
      if key = "product_name" then pn
      else if key = "target_audience" then ta
      else if key = "benefits_list" then bl
      else if key = "primary_benefit" then pb
      else "")
    template.data none)

/-- The `cold_call_template["professional"]` string (src/app.py lines 181-194). -/
def cold_call_professional : String :=
"
Hello, this is [Your Name] from [Company]. I hope I\x27m not catching you at a bad time.

I\x27m reaching out to {target_audience} because I know you\x27re always looking for ways to {primary_benefit}.

We\x27ve developed {product_name} that specifically helps businesses like yours achieve:
{benefits_list}

I\x27d love to show you how {product_name} has helped similar companies in your industry. 

Would you have 15 minutes this week for a quick demonstration? I promise it will be worth your time.

What would work better for you - Tuesday afternoon or Thursday morning?
"

/-- The `cold_call_template["casual"]` string (src/app.py lines 195-208). -/
def cold_call_casual : String :=
"
Hi there! This is [Your Name] from [Company]. 

Quick question - are you still dealing with [common problem] in your business?

I\x27ve got something that might interest you. It\x27s called {product_name}, and it\x27s designed specifically for {target_audience}.

Here\x27s what makes it special:
{benefits_list}

Look, I know you\x27re busy, so how about this - give me just 10 minutes to show you how this works, and if you don\x27t see the value, no worries at all.

When would be a good time to chat briefly?
"

/-- The `cold_call_template["enthusiastic"]` string (src/app.py lines 209-222). -/
def cold_call_enthusiastic : String :=
"
Hello! This is [Your Name] from [Company], and I have some exciting news for {target_audience}!

We\x27ve just launched {product_name}, and the results our clients are seeing are incredible:
{benefits_list}

I\x27m so confident this will transform your business that I want to offer you a personal demonstration at no cost.

This is a game-changer, and I\x27d hate for you to miss out on getting ahead of your competition.

Can we schedule 20 minutes this week? Trust me, this will be the best 20 minutes you\x27ll invest in your business this month!

What day works best for you?
"

/-- The `presentation_template["professional"]` string (src/app.py lines 226-246). -/
def presentation_professional : String :=
"
Good [morning/afternoon], everyone. Thank you for taking the time to learn about {product_name}.

Today, I\x27m here to show you how {product_name} can specifically benefit {target_audience}.

Let me start with a question: How many of you have experienced [common pain point]?

[Pause for responses]

That\x27s exactly why we created {product_name}. Our solution addresses these challenges by providing:
{benefits_list}

Over the next [X] minutes, I\x27ll show you exactly how this works and share some real results from companies just like yours.

By the end of this presentation, you\x27ll understand:
- How {product_name} solves your specific challenges
- The measurable impact you can expect
- How to get started immediately

Let\x27s begin with a quick demonstration...
"

/-- The `presentation_template["casual"]` string (src/app.py lines 247-262). -/
def presentation_casual : String :=
"
Hey everyone! Thanks for being here today.

So, let me guess - you\x27re probably thinking \"another product demo, right?\" 

Well, {product_name} is different, and I think you\x27ll see why.

We built this specifically for {target_audience} because we kept hearing the same frustrations over and over.

Here\x27s what {product_name} actually does:
{benefits_list}

Instead of just talking about it, let me show you. I\x27m going to walk through a real example that I think you\x27ll find pretty interesting.

Ready? Let\x27s dive in...
"

/-- The `presentation_template["enthusiastic"]` string (src/app.py lines 263-278). -/
def presentation_enthusiastic : String :=
"
Welcome everyone! I am SO excited to share {product_name} with you today!

This is honestly one of the most innovative solutions I\x27ve seen for {target_audience}, and I can\x27t wait to show you why.

Before we start, let me ask - who here is ready to revolutionize the way you [core function]?

[Pause for energy]

Perfect! Because {product_name} is going to blow your minds with:
{benefits_list}

I\x27ve got some incredible success stories to share, and by the time we\x27re done, you\x27re going to want to get started immediately.

This is going to be amazing - let\x27s jump right in!
"

/-- The `cold_call_template` dict of src/app.py lines 180-223, as an
association list keyed by tone. -/
def cold_call_template : List (String × String) :=
  [("professional", cold_call_professional),
   ("casual", cold_call_casual),
   ("enthusiastic", cold_call_enthusiastic)]

/-- The `presentation_template` dict of src/app.py lines 225-279. -/
def presentation_template : List (String × String) :=
  [("professional", presentation_professional),
   ("casual", presentation_casual),
   ("enthusiastic", presentation_enthusiastic)]

/-- Template selection (src/app.py lines 281-283):
`templates = cold_call_template if script_type == "cold_call" else presentation_template`
followed by `templates.get(tone, templates["professional"])`. -/
def select_template (script_type tone : String) : String :=
  let templates := if script_type = "cold_call" then cold_call_template else presentation_template
  (templates.lookup tone).getD ((templates.lookup "professional").getD "")

/-- `benefits_list = "\n".join([f"• {benefit}" for benefit in key_benefits])`
(src/app.py line 286). -/
def benefits_list (key_benefits : List String) : String :=
  String.intercalate "\n" (key_benefits.map (fun benefit => "• " ++ benefit))

/-- `primary_benefit = key_benefits[0] if key_benefits else "improve your business"`
(src/app.py line 287). -/
def primary_benefit (key_benefits : List String) : String :=
  match key_benefits with
  | [] => "improve your business"
  | b :: _ => b

/-- The cold-call base tip list (src/app.py lines 304-311). -/
def cold_call_tips : List String :=
  ["Speak clearly and at a moderate pace",
   "Pause after questions to allow responses",
   "Be prepared for objections",
   "Have your calendar ready for scheduling",
   "Practice saying the product name confidently"]

/-- The presentation base tip list (src/app.py lines 312-319). -/
def presentation_tips : List String :=
  ["Make eye contact with your audience",
   "Use gestures to emphasize key points",
   "Pause for questions at natural breaks",
   "Have backup slides ready",
   "End with a clear call to action"]

/-- The tone-keyed tip appended after the base list (src/app.py lines 321-326). -/
def tone_tip (tone : String) : String :=
  if tone = "enthusiastic" then "Let your genuine excitement show through"
  else if tone = "casual" then "Keep the conversation natural and relaxed"
  else "Maintain professional demeanor throughout"

/-- The result dict returned by `generate_sales_script` (src/app.py lines 328-335). -/
structure ScriptResult where
  success : Bool
  script : String
  script_type : String
  word_count : Nat
  estimated_duration : String
  tips : List String
deriving Repr, DecidableEq

/-- The helper `generate_sales_script` (src/app.py lines 175-335): select a
template by script_type and tone, interpolate, strip, count words, estimate
the speaking duration, and build the tips list (base list by script_type,
tone tip appended, truncated to 5). -/
def generate_sales_script (product_name target_audience : String)
    (key_benefits : List String) (tone script_type : String) : ScriptResult :=
  let template := select_template script_type tone
  let script := pyStrip (formatTemplate template product_name target_audience
    (benefits_list key_benefits) (primary_benefit key_benefits))
  let word_count := (pySplit script).length
  let estimated_minutes := max 1 (word_count / 150)
  let duration := toString estimated_minutes ++ "-" ++ toString (estimated_minutes + 1) ++ " minutes"
  let tips := if script_type = "cold_call" then cold_call_tips else presentation_tips
  let tips := tips ++ [tone_tip tone]
  { success := true
    script := script
    script_type := script_type
    word_count := word_count
    estimated_duration := duration
    tips := tips.take 5 }

/-- The `/api/sales-script` handler `generate_script` (src/app.py lines
384-428), restricted to the fields of the `SalesScriptResponse` model (the
processing-time / request-id / request-counter telemetry merged in by the
boundary is time-dependent plumbing outside the model).  The `try` body is
abstracted as an `Except String ScriptResult`: `Except.ok` is a normal return
of `generate_sales_script`, `Except.error e` is any exception raised during
generation whose `str(e)` is `e`; the handler catches it and builds the
failure response of lines 420-427. -/
def generate_script (request_script_type : String)
    (gen : Except String ScriptResult) : ScriptResult :=
  match gen with
  | Except.ok result => result
  | Except.error e =>
    { success := false
      script := "Error generating script: " ++ e
      script_type := request_script_type
      word_count := 0
      estimated_duration := "0 minutes"
      tips := ["Please try again with valid parameters"] }

/-- `default_benefits` of the quick-script handler (src/app.py line 450). -/
def default_benefits : List String :=
  ["Saves time", "Increases efficiency", "Reduces costs"]

/-- The response produced by the quick-script handler before JSON encoding:
either the dict returned by `generate_sales_script`, or the inline
validation-error dict of src/app.py lines 456-460, or the error dict built by
the `except` clause of lines 488-503 (carrying `str(e)` and the fixed
apology text). -/
inductive QuickResponse where
  | ok (result : ScriptResult)
  | validationError (error script : String)
  | exceptionError (error script : String)
deriving Repr, DecidableEq

/-- The `/api/quick-script/predict` handler `quick_script` (src/app.py lines
434-503).  The request body is `data : List[Union[str, None]]`, modelled as
`List (Option String)`; positions past the end of the list take the fixed
defaults of lines 445-447.  A `None` in position 0 is falsy and hits the
validation branch; a `None` in position 1 or 2 makes `.strip()` / `.lower()`
raise `AttributeError`, which the outer `except` turns into the error
response (the Python exception text is not modelled beyond its class name). -/
def quick_script (data : List (Option String)) : QuickResponse :=
  let product_name := data.getD 0 (some "Your Product")
  let target_audience := data.getD 1 (some "business owners")
  let tone := data.getD 2 (some "professional")
  match product_name with
  | none =>
    QuickResponse.validationError "Product name is required"
      "Please provide a product name to generate a script."
  | some pn =>
    if pn = "" ∨ pyStrip pn = "" then
      QuickResponse.validationError "Product name is required"
        "Please provide a product name to generate a script."
    else
      match target_audience, tone with
      | some ta, some t =>
        QuickResponse.ok
          (generate_sales_script (pyStrip pn) (pyStrip ta) default_benefits (pyLower t) "cold_call")
      | _, _ =>
        QuickResponse.exceptionError "AttributeError"
          "An error occurred while generating the script. Please try again."

/-- Spec-side counterpart of `benefits_list`, following the spec sentence
that blank or whitespace-only benefits are dropped from the bulleted list
(spec.md section 4.1, Interpolation).  Compared with the code-side
`benefits_list` for claim C5. -/
def benefits_list_spec (key_benefits : List String) : String :=
  String.intercalate "\n"
    ((key_benefits.filter (fun b => pyStrip b ≠ "")).map (fun benefit => "• " ++ benefit))

/-- Evaluation of a three-key association-list lookup, used to reason about
the tone dictionaries. -/
lemma lookup_three (key v1 v2 v3 : String) :
    List.lookup key [("professional", v1), ("casual", v2), ("enthusiastic", v3)]
      = (if key = "professional" then some v1
         else if key = "casual" then some v2
         else if key = "enthusiastic" then some v3
         else none) := by
  by_cases h1 : key = "professional"
  · subst h1; rfl
  · by_cases h2 : key = "casual"
    · subst h2; rfl
    · by_cases h3 : key = "enthusiastic"
      · subst h3; rfl
      · rw [if_neg h1, if_neg h2, if_neg h3]
        have b1 : (key == "professional") = false := beq_eq_false_iff_ne.mpr h1
        have b2 : (key == "casual") = false := beq_eq_false_iff_ne.mpr h2
        have b3 : (key == "enthusiastic") = false := beq_eq_false_iff_ne.mpr h3
        simp [List.lookup, b1, b2, b3]

/-- Reduction of the quick-script handler on a request that passes the
product-name check with all three positions supplied (possibly by default). -/
lemma quick_script_ok (data : List (Option String)) (pn ta t : String)
    (hpn : data.getD 0 (some "Your Product") = some pn)
    (hta : data.getD 1 (some "business owners") = some ta)
    (ht : data.getD 2 (some "professional") = some t)
    (h1 : pn ≠ "") (h2 : pyStrip pn ≠ "") :
    quick_script data
      = QuickResponse.ok
          (generate_sales_script (pyStrip pn) (pyStrip ta) default_benefits (pyLower t) "cold_call") := by
  simp only [quick_script]
  rw [hpn, hta, ht]
  show (if pn = "" ∨ pyStrip pn = "" then
      QuickResponse.validationError "Product name is required"
        "Please provide a product name to generate a script."
    else
      QuickResponse.ok
        (generate_sales_script (pyStrip pn) (pyStrip ta) default_benefits (pyLower t) "cold_call"))
    = QuickResponse.ok
        (generate_sales_script (pyStrip pn) (pyStrip ta) default_benefits (pyLower t) "cold_call")
  exact if_neg (not_or.mpr ⟨h1, h2⟩)

/-- Length of the tail-recursive worker of `String.intercalate`. -/
lemma intercalate_go_length (s : String) (as : List String) :
    ∀ acc : String, (String.intercalate.go acc s as).length
      = acc.length + (as.map String.length).sum + as.length * s.length := by
  induction as with
  | nil =>
    intro acc
    simp [String.intercalate.go]
  | cons a t ih =>
    intro acc
    simp only [String.intercalate.go]
    rw [ih]
    simp only [String.length_append, List.map_cons, List.sum_cons, List.length_cons, Nat.succ_mul]
    ring

/-- Sum of the bullet-line lengths of a benefit list. -/
lemma sum_map_two_add (t : List String) :
    (t.map (fun b => 2 + b.length)).sum = 2 * t.length + (t.map String.length).sum := by
  induction t with
  | nil => simp
  | cons x xs ih =>
    simp only [List.map_cons, List.sum_cons, List.length_cons, ih]
    ring

/-- Closed form for the length of a non-empty bulleted benefits list: each of
the n benefits contributes its bullet glyph, a space and its text, and the
n-1 separators contribute one newline each. -/
lemma benefits_list_length (kb : List String) (hkb : kb ≠ []) :
    (benefits_list kb).length + 1 = 3 * kb.length + (kb.map String.length).sum := by
  cases kb with
  | nil => exact absurd rfl hkb
  | cons a t =>
    have h0 : benefits_list (a :: t)
        = String.intercalate.go ("• " ++ a) "\n" (t.map (fun b => "• " ++ b)) := rfl
    have hb : ("• " : String).length = 2 := rfl
    have hn1 : ("\n" : String).length = 1 := rfl
    rw [h0, intercalate_go_length]
    have h2 : ((t.map (fun b => "• " ++ b)).map String.length)
        = t.map (fun b => 2 + b.length) := by
      rw [List.map_map]
      simp [Function.comp, String.length_append, hb]
    rw [h2, sum_map_two_add, String.length_append, hb, hn1]
    simp only [List.map_cons, List.sum_cons, List.length_cons, List.length_map]
    ring

/-- A benefit list containing a blank or whitespace-only entry genuinely
separates the code behaviour from the drop-blanks behaviour: dropping an
entry shortens the bulleted list, so the two strings differ. -/
lemma benefits_ne_of_blank (kb : List String) (b0 : String)
    (hb0 : b0 ∈ kb) (hblank : pyStrip b0 = "") :
    benefits_list kb ≠ benefits_list_spec kb := by
  have hkb : kb ≠ [] := by
    intro h
    subst h
    exact absurd hb0 (List.not_mem_nil b0)
  have hspec : benefits_list_spec kb = benefits_list (kb.filter (fun b => pyStrip b ≠ "")) := rfl
  have hFsub : List.Sublist (kb.filter (fun b => pyStrip b ≠ "")) kb := List.filter_sublist kb
  have hFlt : (kb.filter (fun b => pyStrip b ≠ "")).length < kb.length := by
    have hle := List.length_filter_le (fun b => decide (pyStrip b ≠ "")) kb
    rcases Nat.lt_or_ge (kb.filter (fun b => pyStrip b ≠ "")).length kb.length with hlt | hge
    · exact hlt
    · exfalso
      have heqlen : (kb.filter (fun b => pyStrip b ≠ "")).length = kb.length :=
        Nat.le_antisymm hle hge
      have heq : kb.filter (fun b => pyStrip b ≠ "") = kb := hFsub.eq_of_length heqlen
      have hall := List.filter_eq_self.mp heq b0 hb0
      simp [hblank] at hall
  have hSle : ((kb.filter (fun b => pyStrip b ≠ "")).map String.length).sum
      ≤ (kb.map String.length).sum :=
    List.Sublist.sum_le_sum (hFsub.map String.length) (fun a _ => Nat.zero_le a)
  intro heq
  have hlen : (benefits_list kb).length = (benefits_list_spec kb).length :=
    congrArg String.length heq
  have hcode := benefits_list_length kb hkb
  have hn : 0 < kb.length := List.length_pos.mpr hkb
  by_cases hFnil : kb.filter (fun b => pyStrip b ≠ "") = []
  · have hz : (benefits_list_spec kb).length = 0 := by
      rw [hspec, hFnil]
      rfl
    omega
  · have hspeclen := benefits_list_length (kb.filter (fun b => pyStrip b ≠ "")) hFnil
    rw [hspec] at hlen
    omega

/-- C1: for every input, the word_count returned by `generate_sales_script`
equals the number of whitespace-delimited tokens of the returned script text
(the text after interpolation and stripping). -/
theorem word_count_counts_script_tokens (pn ta : String) (kb : List String) (tone st : String) :
    (generate_sales_script pn ta kb tone st).word_count
      = (pySplit (generate_sales_script pn ta kb tone st).script).length := rfl

/-- C2: for every input, the returned tips list is the first 5 elements of the
script_type-keyed 5-item base list with the tone-keyed tip appended; hence its
length is at most 5 and, the base list having 5 items, the tone tip is always
dropped and the tips equal the base list alone. -/
theorem tips_truncation (pn ta : String) (kb : List String) (tone st : String) :
    (generate_sales_script pn ta kb tone st).tips
        = ((if st = "cold_call" then cold_call_tips else presentation_tips)
            ++ [tone_tip tone]).take 5
      ∧ (generate_sales_script pn ta kb tone st).tips.length ≤ 5
      ∧ (generate_sales_script pn ta kb tone st).tips
        = (if st = "cold_call" then cold_call_tips else presentation_tips) := by
  refine ⟨rfl, ?_, ?_⟩
  · show (((if st = "cold_call" then cold_call_tips else presentation_tips)
      ++ [tone_tip tone]).take 5).length ≤ 5
    rw [List.length_take]
    exact min_le_left _ _
  · by_cases h : st = "cold_call"
    · subst h; rfl
    · show ((if st = "cold_call" then cold_call_tips else presentation_tips)
        ++ [tone_tip tone]).take 5 = _
      rw [if_neg h]
      rfl

/-- C3: template selection is a two-step lookup — the cold-call family is used
exactly when script_type equals "cold_call" (anything else selects the
presentation family), and within the family the tone template is used with the
professional template as a silent fallback for unrecognized tones. -/
theorem template_selection_fallback (script_type tone : String) :
    select_template script_type tone
      = if script_type = "cold_call" then
          (if tone = "professional" then cold_call_professional
           else if tone = "casual" then cold_call_casual
           else if tone = "enthusiastic" then cold_call_enthusiastic
           else cold_call_professional)
        else
          (if tone = "professional" then presentation_professional
           else if tone = "casual" then presentation_casual
           else if tone = "enthusiastic" then presentation_enthusiastic
           else presentation_professional) := by
  simp only [select_template]
  by_cases h : script_type = "cold_call"
  · rw [if_pos h, if_pos h]
    unfold cold_call_template
    rw [lookup_three]
    split_ifs <;> rfl
  · rw [if_neg h, if_neg h]
    unfold presentation_template
    rw [lookup_three]
    split_ifs <;> rfl

/-- C4: for every input with an empty key_benefits list, the primary_benefit
value interpolated into the template is the literal fallback phrase
"improve your business" and the interpolated benefits section is empty. -/
theorem empty_benefits_fallbacks (pn ta tone st : String) :
    primary_benefit [] = "improve your business"
    ∧ benefits_list [] = ""
    ∧ (generate_sales_script pn ta [] tone st).script
        = pyStrip (formatTemplate (select_template st tone) pn ta "" "improve your business") :=
  ⟨rfl, rfl, rfl⟩

/-- C5 counterexample: on the input key_benefits = [" "], the code keeps a
bullet line for the whitespace-only benefit, while the claimed behaviour
(blank or whitespace-only benefits dropped) would produce an empty list. -/
theorem blank_benefit_not_dropped :
    benefits_list [" "] = "•  "
    ∧ benefits_list_spec [" "] = ""
    ∧ benefits_list [" "] ≠ benefits_list_spec [" "] := by
  refine ⟨rfl, rfl, ?_⟩
  decide

/-- C5 amended: for every input, the interpolated benefits_list contains one
bullet line per input benefit, in input order, with blank or whitespace-only
benefits kept (a bullet line is emitted for them too, not dropped): the code
output coincides with the drop-blanks behaviour if and only if no benefit is
blank or whitespace-only. -/
theorem benefits_list_one_bullet_per_benefit (kb : List String) :
    benefits_list kb = String.intercalate "\n" (kb.map (fun benefit => "• " ++ benefit))
    ∧ (benefits_list kb = benefits_list_spec kb ↔ ∀ b ∈ kb, pyStrip b ≠ "") := by
  refine ⟨rfl, ?_, ?_⟩
  · intro heq b hb hblank
    exact benefits_ne_of_blank kb b hb hblank heq
  · intro h
    have hfilter : kb.filter (fun b => pyStrip b ≠ "") = kb := by
      rw [List.filter_eq_self]
      intro a ha
      simpa using h a ha
    unfold benefits_list benefits_list_spec
    rw [hfilter]

/-- C5 amended, witness at a concrete benefit list containing a
whitespace-only entry (both sides of the equivalence are false there). -/
theorem benefits_list_one_bullet_per_benefit_witness :
    benefits_list ["Saves time", " "]
        = String.intercalate "\n"
            ((["Saves time", " "] : List String).map (fun benefit => "• " ++ benefit))
    ∧ (benefits_list ["Saves time", " "] = benefits_list_spec ["Saves time", " "]
        ↔ ∀ b ∈ (["Saves time", " "] : List String), pyStrip b ≠ "") :=
  benefits_list_one_bullet_per_benefit ["Saves time", " "]

/-- C6: for every input, estimated_duration is the string
"low-(low+1) minutes" where low = max 1 (word_count / 150), computed by
integer floor division from the returned word_count. -/
theorem estimated_duration_from_word_count (pn ta : String) (kb : List String) (tone st : String) :
    (generate_sales_script pn ta kb tone st).estimated_duration
      = toString (max 1 ((generate_sales_script pn ta kb tone st).word_count / 150))
        ++ "-"
        ++ toString (max 1 ((generate_sales_script pn ta kb tone st).word_count / 150) + 1)
        ++ " minutes" := rfl

/-- C7: for every request and every exception raised during script
generation, the `/api/sales-script` boundary catches it and returns a
response with success = false, an explanatory message carrying the exception
text in place of the script, and word_count zero, instead of propagating. -/
theorem boundary_converts_exception (st e : String) :
    generate_script st (Except.error e)
      = { success := false
          script := "Error generating script: " ++ e
          script_type := st
          word_count := 0
          estimated_duration := "0 minutes"
          tips := ["Please try again with valid parameters"] }
    ∧ (generate_script st (Except.error e)).success = false
    ∧ (generate_script st (Except.error e)).word_count = 0 :=
  ⟨rfl, rfl, rfl⟩

/-- C8: for every quick-script request whose extracted product name is
non-empty (after stripping), the composer is invoked with script_type fixed
to "cold_call" and the fixed three-item default benefit list, whatever the
positional data array contains. -/
theorem quick_script_fixes_script_type_and_benefits (data : List (Option String))
    (pn ta t : String)
    (hpn : data.getD 0 (some "Your Product") = some pn)
    (hta : data.getD 1 (some "business owners") = some ta)
    (ht : data.getD 2 (some "professional") = some t)
    (hne : pyStrip pn ≠ "") :
    quick_script data
      = QuickResponse.ok
          (generate_sales_script (pyStrip pn) (pyStrip ta) default_benefits (pyLower t) "cold_call") := by
  have hpn' : pn ≠ "" := by
    intro h0
    subst h0
    exact hne (by decide)
  exact quick_script_ok data pn ta t hpn hta ht hpn' hne

/-- C8 witness: a concrete three-element quick-script request. -/
theorem quick_script_fixes_script_type_and_benefits_witness :
    quick_script [some "AI Platform", some "Small businesses", some "Professional"]
      = QuickResponse.ok
          (generate_sales_script (pyStrip "AI Platform") (pyStrip "Small businesses")
            default_benefits (pyLower "Professional") "cold_call") :=
  quick_script_fixes_script_type_and_benefits
    [some "AI Platform", some "Small businesses", some "Professional"]
    "AI Platform" "Small businesses" "Professional" rfl rfl rfl (by decide)

/-- C9: script generation is deterministic — two invocations of the composer
on identical inputs return the same script text and the same word count. -/
theorem generate_sales_script_deterministic (pn pn' ta ta' : String)
    (kb kb' : List String) (tone tone' st st' : String)
    (h : pn = pn' ∧ ta = ta' ∧ kb = kb' ∧ tone = tone' ∧ st = st') :
    (generate_sales_script pn ta kb tone st).script
        = (generate_sales_script pn' ta' kb' tone' st').script
      ∧ (generate_sales_script pn ta kb tone st).word_count
        = (generate_sales_script pn' ta' kb' tone' st').word_count := by
  obtain ⟨h1, h2, h3, h4, h5⟩ := h
  subst h1
  subst h2
  subst h3
  subst h4
  subst h5
  exact ⟨rfl, rfl⟩

/-- C9 witness: determinism instantiated at a concrete input. -/
theorem generate_sales_script_deterministic_witness :
    (generate_sales_script "AI Analytics Platform" "Small business owners"
        ["Saves time", "Increases revenue", "Easy to use"] "professional" "cold_call").script
      = (generate_sales_script "AI Analytics Platform" "Small business owners"
        ["Saves time", "Increases revenue", "Easy to use"] "professional" "cold_call").script
    ∧ (generate_sales_script "AI Analytics Platform" "Small business owners"
        ["Saves time", "Increases revenue", "Easy to use"] "professional" "cold_call").word_count
      = (generate_sales_script "AI Analytics Platform" "Small business owners"
        ["Saves time", "Increases revenue", "Easy to use"] "professional" "cold_call").word_count :=
  generate_sales_script_deterministic "AI Analytics Platform" "AI Analytics Platform"
    "Small business owners" "Small business owners"
    ["Saves time", "Increases revenue", "Easy to use"]
    ["Saves time", "Increases revenue", "Easy to use"]
    "professional" "professional" "cold_call" "cold_call"
    ⟨rfl, rfl, rfl, rfl, rfl⟩

/-- C10: quick-script parameter extraction fills missing positions with the
fixed defaults "Your Product", "business owners" and "professional", and a
supplied tone is lowercased before template dispatch, so tones agreeing after
lowercasing produce the same response. -/
theorem quick_script_defaults_and_tone_lowercase (pn ta t t' : String)
    (hpn : pn ≠ "") (hne : pyStrip pn ≠ "") (hlow : pyLower t = pyLower t') :
    quick_script []
        = QuickResponse.ok
            (generate_sales_script "Your Product" "business owners"
              default_benefits "professional" "cold_call")
      ∧ quick_script [some pn]
        = QuickResponse.ok
            (generate_sales_script (pyStrip pn) "business owners"
              default_benefits "professional" "cold_call")
      ∧ quick_script [some pn, some ta]
        = QuickResponse.ok
            (generate_sales_script (pyStrip pn) (pyStrip ta)
              default_benefits "professional" "cold_call")
      ∧ quick_script [some pn, some ta, some t]
        = quick_script [some pn, some ta, some t'] := by
  refine ⟨?_, ?_, ?_, ?_⟩
  · exact quick_script_ok [] "Your Product" "business owners" "professional"
      rfl rfl rfl (by decide) (by decide)
  · exact quick_script_ok [some pn] pn "business owners" "professional"
      rfl rfl rfl hpn hne
  · exact quick_script_ok [some pn, some ta] pn ta "professional"
      rfl rfl rfl hpn hne
  · rw [quick_script_ok [some pn, some ta, some t] pn ta t rfl rfl rfl hpn hne,
      quick_script_ok [some pn, some ta, some t'] pn ta t' rfl rfl rfl hpn hne,
      hlow]

/-- C10 witness: concrete requests exercising the defaults and a mixed-case
tone. -/
theorem quick_script_defaults_and_tone_lowercase_witness :
    quick_script []
        = QuickResponse.ok
            (generate_sales_script "Your Product" "business owners"
              default_benefits "professional" "cold_call")
      ∧ quick_script [some "AI Platform"]
        = QuickResponse.ok
            (generate_sales_script (pyStrip "AI Platform") "business owners"
              default_benefits "professional" "cold_call")
      ∧ quick_script [some "AI Platform", some "Small businesses"]
        = QuickResponse.ok
            (generate_sales_script (pyStrip "AI Platform") (pyStrip "Small businesses")
              default_benefits "professional" "cold_call")
      ∧ quick_script [some "AI Platform", some "Small businesses", some "Professional"]
        = quick_script [some "AI Platform", some "Small businesses", some "professional"] :=
  quick_script_defaults_and_tone_lowercase "AI Platform" "Small businesses"
    "Professional" "professional" (by decide) (by decide) (by decide)

end SalesScript
